import Mathlib

/-!
Verification development for the Multi-Chamber Test application.

The definitions below are a shallow embedding of the Python sources:
`test_manager.py` (chamber state, test phases), `pid_controller.py`
(adaptive pulse regulator), `calibration_manager.py` / `calibration_db.py`
(least-squares calibration and its persistence), and `pressure_sensor.py`
(per-channel error backoff).  Machine floats are modelled as exact
rationals; every claim below concerns either exact algebraic identities or
control flow, both of which the rational embedding preserves on the
concrete inputs used.
-/

namespace MultiChamberTest

/-! ## Constants (`config/constants.py`)

The module assigns `PRESSURE_DEFAULTS` twice; the second assignment wins
when the module loads, so the effective defaults are TARGET 150,
THRESHOLD 5, TOLERANCE 2, MAX_PRESSURE 600. -/

def PRESSURE_TARGET_DEFAULT : ℚ := 150

def PRESSURE_THRESHOLD_DEFAULT : ℚ := 5

def PRESSURE_TOLERANCE_DEFAULT : ℚ := 2

def MAX_PRESSURE : ℚ := 600

/-! ## Chamber test state (`test_manager.py`, class `ChamberTestState`) -/

/-- State container for an individual chamber during testing, mirroring the
fields of `ChamberTestState.__init__` (test_manager.py lines 34-60).
`result` is initialized to the boolean `False` and is a `Bool` throughout
the program's life. -/
structure ChamberTestState where
  chamber_index : ℕ
  enabled : Bool
  pressure_target : ℚ
  pressure_threshold : ℚ
  pressure_tolerance : ℚ
  current_pressure : ℚ
  pressure_readings : List ℚ
  start_pressure : ℚ
  final_pressure : ℚ
  result : Bool
  filled : Bool
  regulated : Bool
  stabilized : Bool
  tested : Bool
  deriving Repr, DecidableEq

/-- Constructor defaults of `ChamberTestState.__init__`. -/
def ChamberTestState.init (i : ℕ) : ChamberTestState :=
  { chamber_index := i
    enabled := true
    pressure_target := PRESSURE_TARGET_DEFAULT
    pressure_threshold := PRESSURE_THRESHOLD_DEFAULT
    pressure_tolerance := PRESSURE_TOLERANCE_DEFAULT
    current_pressure := 0
    pressure_readings := []
    start_pressure := 0
    final_pressure := 0
    result := false
    filled := false
    regulated := false
    stabilized := false
    tested := false }

/-- Embedding of `ChamberTestState.reset` (test_manager.py lines 63-78):
clears the per-run fields, sets `result` back to `False`, and leaves the
chamber parameters untouched. -/
def ChamberTestState.reset (ch : ChamberTestState) : ChamberTestState :=
  { ch with
    current_pressure := 0
    pressure_readings := []
    start_pressure := 0
    final_pressure := 0
    result := false
    filled := false
    regulated := false
    stabilized := false
    tested := false }

/-! ## TESTING phase (`TestManager._run_testing_phase`, lines 771-828)

The monitoring thread publishes `current_pressure`; the testing loop reads
it once per ~100 ms tick.  A run of the phase for one chamber is therefore
parametrized by the list of pressures sampled at successive ticks. -/

/-- Per-chamber body of one iteration of the TESTING loop: the monitor
publishes the tick's sample into `current_pressure`; for an enabled,
stabilized chamber the loop records the reading and latches `result` to
`False` whenever the sample is strictly below `pressure_threshold`. -/
def testingMonitorStep (ch : ChamberTestState) (sample : ℚ) : ChamberTestState :=
  let ch1 := { ch with current_pressure := sample }
  if ch1.enabled && ch1.stabilized then
    let ch2 := { ch1 with pressure_readings := ch1.pressure_readings ++ [sample] }
    if ch2.current_pressure < ch2.pressure_threshold then
      { ch2 with result := false }
    else ch2
  else ch1

/-- Guard `not hasattr(chamber, 'result') or chamber.result is None` from
the end of `_run_testing_phase` (line 821).  The attribute always exists
and is never `None`: it is assigned the boolean `False` by `__init__` and
`reset` and only ever reassigned booleans.  The guard is therefore the
constant `false`, and the `chamber.result = True` branch behind it is dead
code. -/
def resultMissing (_ch : ChamberTestState) : Bool := false

/-- End-of-phase bookkeeping of `_run_testing_phase` (lines 815-822) for
one chamber: mark it tested, snapshot `final_pressure` from the last
sample, and run the (dead, see `resultMissing`) default-to-pass branch. -/
def testingPhaseEnd (ch : ChamberTestState) : ChamberTestState :=
  if ch.enabled && ch.stabilized then
    let ch1 := { ch with tested := true, final_pressure := ch.current_pressure }
    if resultMissing ch1 then { ch1 with result := true } else ch1
  else ch

/-- Whole TESTING phase for one chamber on a list of sampled pressures. -/
def runTestingPhase (ch : ChamberTestState) (samples : List ℚ) : ChamberTestState :=
  testingPhaseEnd (samples.foldl testingMonitorStep ch)

/-- Concrete chamber used to exercise the testing phase: a freshly reset
chamber (defaults: threshold 5) that reached stabilization. -/
def stabilizedChamber : ChamberTestState :=
  { (ChamberTestState.init 0).reset with stabilized := true }

/-! ## Test run control flow (`TestManager._run_test`, lines 431-482)

The method runs the four phases in order inside a try block; a phase that
returns `False` (timeout or stop request) makes `_run_test` raise, a phase
may also raise on its own; the except block records the error, and the
finally block unconditionally runs the emptying phase and result
processing. -/

/-- Outcome of one phase call as observed by `_run_test`: the phase
returned `True`, returned `False` (its timeout elapsed or a stop was
requested), or raised an exception. -/
inductive PhaseOutcome
  | success
  | failure
  | raised
  deriving Repr, DecidableEq

/-- Events emitted while `_run_test` executes: entering each phase and the
final result processing. -/
inductive TestEvent
  | filling
  | regulating
  | stabilizing
  | testing
  | emptying
  | processResults
  deriving Repr, DecidableEq

/-- Outcomes of the four phases attempted by the try block of
`_run_test`. -/
structure PhaseOutcomes where
  filling : PhaseOutcome
  regulating : PhaseOutcome
  stabilizing : PhaseOutcome
  testing : PhaseOutcome
  deriving Repr, DecidableEq

/-- Traced computation: the events it emitted, and either a normal return
value or a raised exception. -/
structure Traced (α : Type) where
  events : List TestEvent
  outcome : Except String α
  deriving Repr

/-- Run of one phase: emits the phase's event, then returns its boolean
result or propagates its exception. -/
def runPhase (e : TestEvent) (o : PhaseOutcome) : Traced Bool :=
  { events := [e]
    outcome :=
      match o with
      | .success => .ok true
      | .failure => .ok false
      | .raised => .error "phase raised" }

/-- Sequencing used by the try block: `if not phase(): raise Exception(...)`
— a raised exception propagates, a `False` return raises, and only a `True`
return runs the next phase. -/
def andThenPhase (t : Traced Bool) (next : Unit → Traced Bool) : Traced Bool :=
  match t.outcome with
  | .error e => { events := t.events, outcome := .error e }
  | .ok false => { events := t.events, outcome := .error "phase failed" }
  | .ok true =>
    let t2 := next ()
    { events := t.events ++ t2.events, outcome := t2.outcome }

/-- Try block of `_run_test`: filling, regulation, stabilization and
testing in order, each aborting the rest on failure or exception; on full
success the local `result` variable becomes `True`. -/
def tryPhases (o : PhaseOutcomes) : Traced Bool :=
  andThenPhase (runPhase .filling o.filling) fun _ =>
    andThenPhase (runPhase .regulating o.regulating) fun _ =>
      andThenPhase (runPhase .stabilizing o.stabilizing) fun _ =>
        runPhase .testing o.testing

/-- Whole `_run_test` body: whatever the try block did, the except block
swallows the exception (recording the ERROR state) and the finally block
runs the emptying phase and result processing. -/
def runTestTrace (o : PhaseOutcomes) : List TestEvent :=
  (tryPhases o).events ++ [.emptying, .processResults]

/-! ## Calibration persistence (`calibration_db.py`)

The two sqlite tables are modelled as a list of header rows each carrying
its points; `calibration_date` is an abstract timestamp ordered as the
ISO strings are. -/

/-- Dataclass `CalibrationPoint`. -/
structure CalibrationPoint where
  pressure : ℚ
  voltage : ℚ
  timestamp : ℕ
  deriving Repr, DecidableEq

/-- Dataclass `CalibrationResult`. -/
structure CalibrationResult where
  chamber_id : ℕ
  multiplier : ℚ
  offset : ℚ
  r_squared : ℚ
  calibration_date : ℕ
  points : List CalibrationPoint
  deriving Repr, DecidableEq

/-- Row of the `calibration_records` table (with its points), as inserted
by `save_calibration`. -/
structure CalRecord where
  data : CalibrationResult
  is_active : Bool
  deriving Repr, DecidableEq

/-- Database contents, in insertion (rowid) order. -/
abbrev CalDb := List CalRecord

/-- Embedding of `CalibrationDatabase.save_calibration` (calibration_db.py
lines 75-111): the UPDATE clears `is_active` on the chamber's currently
active records, then the INSERT appends the new record with
`is_active = 1` together with its points. -/
def save_calibration (db : CalDb) (cal : CalibrationResult) : CalDb :=
  (db.map fun r =>
    if r.data.chamber_id = cal.chamber_id ∧ r.is_active = true then
      { r with is_active := false }
    else r)
  ++ [{ data := cal, is_active := true }]

/-- Comparator realizing `ORDER BY calibration_date DESC`. -/
def moreRecent (a b : CalRecord) : Prop :=
  b.data.calibration_date ≤ a.data.calibration_date

instance : DecidableRel moreRecent := fun a b =>
  inferInstanceAs (Decidable (b.data.calibration_date ≤ a.data.calibration_date))

instance : IsTotal CalRecord moreRecent :=
  ⟨fun a b => Nat.le_total b.data.calibration_date a.data.calibration_date⟩

instance : IsTrans CalRecord moreRecent :=
  ⟨fun _ _ _ hab hbc => Nat.le_trans hbc hab⟩

/-- Embedding of `CalibrationDatabase.get_calibration_history`
(calibration_db.py lines 148-179): the chamber's records ordered by
`calibration_date DESC` with `LIMIT`. -/
def get_calibration_history (db : CalDb) (chamber_id limit : ℕ) : CalDb :=
  ((db.filter fun r => r.data.chamber_id == chamber_id).insertionSort
    moreRecent).take limit

/-- Records of a chamber currently marked active. -/
def activeFor (db : CalDb) (chamber_id : ℕ) : CalDb :=
  db.filter fun r => r.data.chamber_id == chamber_id && r.is_active

/-- Database produced by a sequence of saves starting from the freshly
created (empty) tables. -/
def savedDb (cals : List CalibrationResult) : CalDb :=
  cals.foldl save_calibration []

/-- Concrete calibration result for chamber 0, saved first (older date). -/
def calFirst : CalibrationResult :=
  { chamber_id := 0, multiplier := 1000, offset := 0, r_squared := 1,
    calibration_date := 1, points := [] }

/-- Concrete calibration result for chamber 0, saved second (newer date). -/
def calSecond : CalibrationResult :=
  { chamber_id := 0, multiplier := 900, offset := 2, r_squared := 1,
    calibration_date := 2, points := [] }

/-! ## Calibration calculation

`CalibrationManager.calculate_calibration` (calibration_manager.py lines
224-270) guards the two divisions; `CalibrationDatabase.calculate_calibration`
(calibration_db.py lines 181-202) computes the same regression with no
guards. -/

/-- Arithmetic mean (`np.mean`).  Both callers require at least two points,
so the empty-list case does not occur. -/
def listMean (xs : List ℚ) : ℚ := xs.sum / xs.length

/-- Result triple of the manager's regression (the remaining
`CalibrationResult` fields are metadata). -/
structure CalibrationFit where
  multiplier : ℚ
  offset : ℚ
  r_squared : ℚ
  deriving Repr, DecidableEq

/-- Embedding of `CalibrationManager.calculate_calibration`: `none` models
the `return None` paths (fewer than two points; zero voltage variance,
logged as "division by zero"); `r_squared` is forced to `0` when
`ss_total` is zero. -/
def CalibrationManager.calculate_calibration (points : List CalibrationPoint) :
    Option CalibrationFit :=
  if points.length < 2 then none
  else
    let x := points.map CalibrationPoint.voltage
    let y := points.map CalibrationPoint.pressure
    let x_mean := listMean x
    let y_mean := listMean y
    let numerator := ((x.zip y).map fun p => (p.1 - x_mean) * (p.2 - y_mean)).sum
    let denominator := (x.map fun v => (v - x_mean) ^ 2).sum
    if denominator = 0 then none
    else
      let multiplier := numerator / denominator
      let offset := y_mean - multiplier * x_mean
      let y_pred := x.map fun v => multiplier * v + offset
      let ss_total := (y.map fun v => (v - y_mean) ^ 2).sum
      let ss_residual := ((y.zip y_pred).map fun p => (p.1 - p.2) ^ 2).sum
      some { multiplier := multiplier, offset := offset,
             r_squared := if ss_total = 0 then 0 else 1 - ss_residual / ss_total }

/-- Fields computed by `CalibrationDatabase.calculate_calibration`; a field
is `none` when the unguarded NumPy arithmetic yields no real number there
(`0/0` gives NaN, `x/0` gives ±inf). -/
structure CalibrationFitPartial where
  multiplier : Option ℚ
  offset : Option ℚ
  r_squared : Option ℚ
  deriving Repr, DecidableEq

/-- Embedding of `CalibrationDatabase.calculate_calibration`: the overall
`none` models the `ValueError` raised on fewer than two points; the
division guards of the manager version are absent, so a zero denominator
leaves the corresponding field undefined instead of substituting a
default. -/
def CalibrationDatabase.calculate_calibration (points : List CalibrationPoint) :
    Option CalibrationFitPartial :=
  if points.length < 2 then none
  else
    let x := points.map CalibrationPoint.voltage
    let y := points.map CalibrationPoint.pressure
    let x_mean := listMean x
    let y_mean := listMean y
    let numerator := ((x.zip y).map fun p => (p.1 - x_mean) * (p.2 - y_mean)).sum
    let denominator := (x.map fun v => (v - x_mean) ^ 2).sum
    if denominator = 0 then some { multiplier := none, offset := none, r_squared := none }
    else
      let multiplier := numerator / denominator
      let offset := y_mean - multiplier * x_mean
      let y_pred := x.map fun v => multiplier * v + offset
      let ss_total := (y.map fun v => (v - y_mean) ^ 2).sum
      let ss_residual := ((y.zip y_pred).map fun p => (p.1 - p.2) ^ 2).sum
      some { multiplier := some multiplier, offset := some offset,
             r_squared := if ss_total = 0 then none
               else some (1 - ss_residual / ss_total) }

/-- Mean voltage x̄, as the spec writes it. -/
def xbar (points : List CalibrationPoint) : ℚ :=
  (points.map CalibrationPoint.voltage).sum / points.length

/-- Mean reference pressure ȳ, as the spec writes it. -/
def ybar (points : List CalibrationPoint) : ℚ :=
  (points.map CalibrationPoint.pressure).sum / points.length

/-- Modelled from the spec: `Σ((x_i−x̄)²)`, the voltage variance term. -/
def specSsXX (points : List CalibrationPoint) : ℚ :=
  (points.map fun p => (p.voltage - xbar points) ^ 2).sum

/-- Modelled from the spec: `Σ((x_i−x̄)(y_i−ȳ))`. -/
def specSxy (points : List CalibrationPoint) : ℚ :=
  (points.map fun p => (p.voltage - xbar points) * (p.pressure - ybar points)).sum

/-- Modelled from the spec: ordinary-least-squares multiplier
`Σ((x_i−x̄)(y_i−ȳ)) / Σ((x_i−x̄)²)`. -/
def olsMultiplier (points : List CalibrationPoint) : ℚ :=
  specSxy points / specSsXX points

/-- Modelled from the spec: ordinary-least-squares offset
`ȳ − multiplier·x̄`. -/
def olsOffset (points : List CalibrationPoint) : ℚ :=
  ybar points - olsMultiplier points * xbar points

/-- Modelled from the spec: `SS_tot = Σ((y_i−ȳ)²)`. -/
def specSsTot (points : List CalibrationPoint) : ℚ :=
  (points.map fun p => (p.pressure - ybar points) ^ 2).sum

/-- Modelled from the spec: `SS_res` against the fitted line. -/
def specSsRes (points : List CalibrationPoint) : ℚ :=
  (points.map fun p =>
    (p.pressure - (olsMultiplier points * p.voltage + olsOffset points)) ^ 2).sum

/-! ## Adaptive pulse regulator (`pid_controller.py`,
`PIDControllerWrapper.compute_adaptive_pulse`, lines 69-112) -/

/-- Control modes shared by the regulator implementations. -/
inductive RegMode
  | fast
  | medium
  | fine
  deriving Repr, DecidableEq

/-- Thresholds of `self.modes` in `PIDControllerWrapper.__init__`. -/
def modeThreshold : RegMode → ℚ
  | .fast => 40
  | .medium => 15
  | .fine => 5

/-- Base `pulse_on` seconds of `self.modes`. -/
def modePulseOn : RegMode → ℚ
  | .fast => 3 / 10
  | .medium => 1 / 5
  | .fine => 1 / 10

/-- Base `pulse_off` seconds of `self.modes`. -/
def modePulseOff : RegMode → ℚ
  | .fast => 1 / 10
  | .medium => 1 / 5
  | .fine => 3 / 10

/-- Mutable state of `PIDControllerWrapper` used by the adaptive pulse
computation. -/
structure PIDWrapperState where
  setpoint : ℚ
  sample_time : ℚ
  last_pressure : Option ℚ
  pressure_history : List ℚ
  deriving Repr, DecidableEq

/-- Constructor state: default `sample_time` 0.1 s, empty history. -/
def PIDWrapperState.init (setpoint : ℚ) : PIDWrapperState :=
  { setpoint := setpoint
    sample_time := 1 / 10
    last_pressure := none
    pressure_history := [] }

/-- Return dictionary of `compute_adaptive_pulse`. -/
structure PulseDecision where
  pulse_on : ℚ
  pulse_off : ℚ
  mode : RegMode
  deriving Repr, DecidableEq

/-- Append the new pressure and drop the oldest entry when the history
exceeds 10 entries (`self.pressure_history.append(...)`; `pop(0)`). -/
def pushHistory (hist : List ℚ) (p : ℚ) : List ℚ :=
  let h := hist ++ [p]
  if 10 < h.length then h.tail else h

/-- Sum of consecutive differences
`sum(history[i] - history[i-1] for i in range(1, len(history)))`. -/
def consecutiveDiffSum (l : List ℚ) : ℚ :=
  ((l.zip l.tail).map fun p => p.2 - p.1).sum

/-- Embedding of `compute_adaptive_pulse`.  The local
`rate = (current - last) / sample_time` of the source is computed only for
a debug log line and feeds nothing, so it is omitted; `avg_rate` is the
mean of the consecutive differences of the (updated) pressure history — the
source never divides it by `sample_time`. -/
def compute_adaptive_pulse (s : PIDWrapperState) (current_pressure : ℚ) :
    PulseDecision × PIDWrapperState :=
  let error := s.setpoint - current_pressure
  let abs_error := |error|
  let mode : RegMode :=
    if abs_error > modeThreshold .fast then .fast
    else if abs_error > modeThreshold .medium then .medium
    else .fine
  let history := pushHistory s.pressure_history current_pressure
  let avg_rate := consecutiveDiffSum history / ((max 1 (history.length - 1) : ℕ) : ℚ)
  let rate_factor := min 1 (|avg_rate| / 10)
  let adjusted_on := modePulseOn mode * (1 - rate_factor)
  let adjusted_off := modePulseOff mode * (1 + rate_factor)
  ({ pulse_on := max (1 / 20) adjusted_on
     pulse_off := max (1 / 20) adjusted_off
     mode := mode },
   { s with last_pressure := some current_pressure, pressure_history := history })

/-- Modelled from the claim (and spec §4.2 step 3): a regulator state that
keeps a bounded (≤10) history of per-sample rates
`(current - last) / sample_interval` and averages it. -/
structure ClaimRegState where
  setpoint : ℚ
  sample_time : ℚ
  last_pressure : Option ℚ
  rate_history : List ℚ
  deriving Repr, DecidableEq

/-- Fresh claim-side regulator state. -/
def ClaimRegState.init (setpoint : ℚ) : ClaimRegState :=
  { setpoint := setpoint
    sample_time := 1 / 10
    last_pressure := none
    rate_history := [] }

/-- Modelled from the claim: the decide step as the claim words it — same
thresholds, base pulses and clamps as the source, but `avg_rate` is the
mean of the stored rates `(current - last) / sample_interval`. -/
def claim_decide (s : ClaimRegState) (current_pressure : ℚ) :
    PulseDecision × ClaimRegState :=
  let error := s.setpoint - current_pressure
  let abs_error := |error|
  let mode : RegMode :=
    if abs_error > modeThreshold .fast then .fast
    else if abs_error > modeThreshold .medium then .medium
    else .fine
  let rates0 :=
    match s.last_pressure with
    | none => s.rate_history
    | some last => s.rate_history ++ [(current_pressure - last) / s.sample_time]
  let rates := if 10 < rates0.length then rates0.tail else rates0
  let avg_rate := rates.sum / ((max 1 rates.length : ℕ) : ℚ)
  let rate_factor := min 1 (|avg_rate| / 10)
  ({ pulse_on := max (1 / 20) (modePulseOn mode * (1 - rate_factor))
     pulse_off := max (1 / 20) (modePulseOff mode * (1 + rate_factor))
     mode := mode },
   { s with last_pressure := some current_pressure, rate_history := rates })

/-- Modelled from the amended claim: the rate factor the source actually
applies — the mean of the consecutive pressure differences over the
window, i.e. the telescoped drift `(last − first)/(n−1)` (in mbar per
sample, not per second), normalized by 10 and clamped to 1. -/
def adjRateFactor (hist : List ℚ) : ℚ :=
  min 1 (|(hist.getLastI - hist.headI) / ((max 1 (hist.length - 1) : ℕ) : ℚ)| / 10)

/-! ## Per-chamber regulation decision
(`TestManager._run_regulation_phase`, lines 544-700)

One iteration of the regulation loop for a single chamber: the
within-tolerance exit, mode selection against the phase's own mode table
(thresholds 10/5, pulses in seconds), rate bookkeeping at the fixed 0.1 s
tick, and the valve action chosen by the sign of the error. -/

/-- Valve action issued for a chamber in one regulation-loop iteration. -/
inductive RegCommand
  | fillPulse (pulse_on pulse_off : ℚ)
  | ventPulse (pulse_on pulse_off : ℚ)
  | idle
  | markRegulated
  deriving Repr, DecidableEq

/-- Per-chamber bookkeeping of the regulation loop (`pressure_rates`,
`last_pressures`, `stable_counts`). -/
structure RegLoopState where
  rates : List ℚ
  last_pressure : Option ℚ
  stable_count : ℕ
  deriving Repr, DecidableEq

/-- Fresh per-chamber bookkeeping at the start of the phase. -/
def RegLoopState.init : RegLoopState :=
  { rates := [], last_pressure := none, stable_count := 0 }

/-- One per-chamber iteration of `_run_regulation_phase`: returns the valve
command, the control mode selected by the error magnitude (`none` when the
within-tolerance exit fires before mode selection), and the updated
bookkeeping. -/
def regulationTick (target tolerance : ℚ) (st : RegLoopState) (current : ℚ) :
    RegCommand × Option RegMode × RegLoopState :=
  let error := target - current
  let abs_error := |error|
  let rates :=
    match st.last_pressure with
    | none => st.rates
    | some last =>
      let r := st.rates ++ [(current - last) / (1 / 10)]
      if 10 < r.length then r.tail else r
  if abs_error ≤ tolerance ∧ 5 ≤ st.stable_count + 1 then
    (.markRegulated, none,
     { rates := rates, last_pressure := some current,
       stable_count := st.stable_count + 1 })
  else
    let stable_count := if abs_error ≤ tolerance then st.stable_count + 1 else 0
    let mode : RegMode :=
      if abs_error > 10 then .fast
      else if abs_error > 5 then .medium
      else .fine
    let pulse_on : ℚ :=
      match mode with
      | .fast => 1 / 10
      | .medium => 1 / 20
      | .fine => 1 / 50
    let pulse_off : ℚ :=
      match mode with
      | .fast => 1 / 20
      | .medium => 1 / 10
      | .fine => 1 / 5
    let avg_rate := if rates = [] then 0 else rates.sum / (rates.length : ℚ)
    let rate_factor := min 1 (|avg_rate| / 10)
    let adjusted_on := pulse_on * (1 - rate_factor)
    let adjusted_off := pulse_off * (1 + rate_factor)
    let cmd : RegCommand :=
      if error > tolerance then .fillPulse adjusted_on adjusted_off
      else if error < -tolerance then .ventPulse (adjusted_on * (3 / 2)) adjusted_off
      else .idle
    (cmd, some mode,
     { rates := rates, last_pressure := some current, stable_count := stable_count })

/-! ## Pressure sensor error backoff (`pressure_sensor.py`,
`PressureSensor.read_voltage` lines 162-217 and `read_pressure` lines
219-273)

The per-channel counters, the threshold short-circuit, the cooldown sleep
and the conversion/filter pipeline are embedded; each call is parametrized
by the outcome of the hardware interaction it would attempt. -/

/-- Threshold `self.max_consecutive_errors`. -/
def MAX_CONSECUTIVE_ERRORS : ℕ := 5

/-- Outcome of the hardware interaction a read call would attempt:
`ensure_initialized()` failing; the ADC uninitialized but re-initializing
successfully (which resets every channel's counter) followed by the read's
outcome; or, with the ADC already initialized, the read raising or
returning a voltage. -/
inductive DeviceOutcome
  | initFailure
  | initSuccessThen (read : Option ℚ)
  | readRaised
  | readOk (voltage : ℚ)
  deriving Repr, DecidableEq

/-- State of `PressureSensor` relevant to reads: conversion parameters,
per-chamber offsets, filter state and the per-channel consecutive-error
counters. -/
structure SensorState where
  voltage_offset : ℚ
  voltage_multiplier : ℚ
  chamber_offsets : List ℚ
  alpha : ℚ
  filtered_values : List ℚ
  consecutive_errors : List ℕ
  deriving Repr, DecidableEq

/-- Error counter of a channel. -/
def SensorState.errOf (s : SensorState) (channel : ℕ) : ℕ :=
  s.consecutive_errors.getD channel 0

/-- Increment a channel's error counter. -/
def SensorState.bumpError (s : SensorState) (channel : ℕ) : SensorState :=
  { s with consecutive_errors :=
      s.consecutive_errors.set channel (s.errOf channel + 1) }

/-- Reset a channel's error counter to zero (successful read). -/
def SensorState.clearError (s : SensorState) (channel : ℕ) : SensorState :=
  { s with consecutive_errors := s.consecutive_errors.set channel 0 }

/-- Result of a `read_voltage` call: the optional value, the updated
state, and whether the hardware was touched at all. -/
structure ReadVoltageResult where
  value : Option ℚ
  state : SensorState
  device_touched : Bool
  deriving Repr, DecidableEq

/-- Embedding of `PressureSensor.read_voltage`: invalid channels return
`None`; a channel whose counter reached the threshold short-circuits
without touching the device, bumping the counter once past the threshold
when it logs its one-time warning; otherwise the device interaction runs —
failure (of initialization or of the read) increments the counter, a
successful re-initialization first resets all four counters, and a
successful read resets the channel's counter and returns the voltage. -/
def read_voltage (s : SensorState) (channel : ℕ) (dev : DeviceOutcome) :
    ReadVoltageResult :=
  if 3 < channel then { value := none, state := s, device_touched := false }
  else if MAX_CONSECUTIVE_ERRORS ≤ s.errOf channel then
    if s.errOf channel = MAX_CONSECUTIVE_ERRORS then
      { value := none, state := s.bumpError channel, device_touched := false }
    else
      { value := none, state := s, device_touched := false }
  else
    match dev with
    | .initFailure =>
      { value := none, state := s.bumpError channel, device_touched := true }
    | .initSuccessThen read =>
      let s1 : SensorState := { s with consecutive_errors := [0, 0, 0, 0] }
      match read with
      | some v =>
        { value := some v, state := s1.clearError channel, device_touched := true }
      | none =>
        { value := none, state := s1.bumpError channel, device_touched := true }
    | .readRaised =>
      { value := none, state := s.bumpError channel, device_touched := true }
    | .readOk v =>
      { value := some v, state := s.clearError channel, device_touched := true }

/-- Result of a `read_pressure` call: the optional value, the updated
state, whether the cooldown sleep ran, and whether the hardware was
touched. -/
structure ReadPressureResult where
  value : Option ℚ
  state : SensorState
  slept : Bool
  device_touched : Bool
  deriving Repr, DecidableEq

/-- Embedding of `PressureSensor.read_pressure`: invalid channels return
`None`; a channel at or past the threshold short-circuits, sleeping the
cooldown (`error_sleep_duration`) exactly when the counter equals the
threshold — the counter itself is not advanced; otherwise the voltage is
read via `read_voltage` and converted to mbar with the chamber offset,
clamping at 0 and optionally applying the exponential moving-average
filter. -/
def read_pressure (s : SensorState) (channel : ℕ) (dev : DeviceOutcome)
    (apply_filter : Bool) : ReadPressureResult :=
  if 3 < channel then
    { value := none, state := s, slept := false, device_touched := false }
  else if MAX_CONSECUTIVE_ERRORS ≤ s.errOf channel then
    { value := none, state := s,
      slept := decide (s.errOf channel = MAX_CONSECUTIVE_ERRORS)
      device_touched := false }
  else
    let r := read_voltage s channel dev
    match r.value with
    | none =>
      { value := none, state := r.state, slept := false,
        device_touched := r.device_touched }
    | some voltage =>
      let base_pressure := voltage * s.voltage_multiplier * 1000
        + s.voltage_offset * 1000
      let adjusted_pressure :=
        if channel ≤ 2 then
          max 0 (base_pressure + s.chamber_offsets.getD channel 0)
        else max 0 base_pressure
      if apply_filter then
        let f := s.alpha * adjusted_pressure
          + (1 - s.alpha) * (s.filtered_values.getD channel 0)
        { value := some f
          state := { r.state with
            filtered_values := r.state.filtered_values.set channel f }
          slept := false, device_touched := true }
      else
        { value := some adjusted_pressure, state := r.state, slept := false,
          device_touched := true }

/-- Concrete sensor state whose channel 0 counter sits exactly at the
threshold. -/
def sensorAtThreshold : SensorState :=
  { voltage_offset := 0
    voltage_multiplier := 1
    chamber_offsets := [0, 0, 0]
    alpha := 1 / 5
    filtered_values := [0, 0, 0, 0]
    consecutive_errors := [5, 0, 0, 0] }

/-! ## Chamber parameter updates (`TestManager.set_chamber_parameters`,
lines 224-273)

The method validates and applies the entries of the `params` dict one
after another, mutating the chamber state as it goes and returning `False`
from the middle of the sequence when a later entry is invalid. -/

/-- Entries of the `params` dictionary. -/
structure ChamberParamsUpdate where
  enabled : Option Bool
  pressure_target : Option ℚ
  pressure_threshold : Option ℚ
  pressure_tolerance : Option ℚ
  deriving Repr, DecidableEq

/-- Tolerance step of `set_chamber_parameters`: a negative tolerance logs
an error and returns `False` with the state as mutated so far. -/
def setParamsTolerance (ch : ChamberTestState) (params : ChamberParamsUpdate) :
    Bool × ChamberTestState :=
  match params.pressure_tolerance with
  | some tolerance =>
    if 0 ≤ tolerance then (true, { ch with pressure_tolerance := tolerance })
    else (false, ch)
  | none => (true, ch)

/-- Threshold step of `set_chamber_parameters`. -/
def setParamsThreshold (ch : ChamberTestState) (params : ChamberParamsUpdate) :
    Bool × ChamberTestState :=
  match params.pressure_threshold with
  | some threshold =>
    if 0 ≤ threshold then
      setParamsTolerance { ch with pressure_threshold := threshold } params
    else (false, ch)
  | none => setParamsTolerance ch params

/-- Embedding of `TestManager.set_chamber_parameters`: rejects an invalid
index or a running test up front, then applies `enabled`, `pressure_target`
(validated against `[0, MAX_PRESSURE]`), `pressure_threshold` and
`pressure_tolerance` in order, returning `False` as soon as a value fails
validation — the already-applied entries stay applied. -/
def set_chamber_parameters (running_test : Bool) (chamber_index : ℤ)
    (ch : ChamberTestState) (params : ChamberParamsUpdate) :
    Bool × ChamberTestState :=
  if ¬ (0 ≤ chamber_index ∧ chamber_index ≤ 2) then (false, ch)
  else if running_test then (false, ch)
  else
    let ch1 :=
      match params.enabled with
      | some b => { ch with enabled := b }
      | none => ch
    match params.pressure_target with
    | some target =>
      if 0 ≤ target ∧ target ≤ MAX_PRESSURE then
        setParamsThreshold { ch1 with pressure_target := target } params
      else (false, ch1)
    | none => setParamsThreshold ch1 params

/-! ## Theorems -/

/-- Helper: one testing tick never turns `result` from `False` to `True`. -/
theorem testingMonitorStep_result_mono (ch : ChamberTestState) (s : ℚ)
    (h : (testingMonitorStep ch s).result = true) : ch.result = true := by
  unfold testingMonitorStep at h
  dsimp only at h
  split at h
  · split at h
    · simp at h
    · exact h
  · exact h

/-- Helper: the testing tick leaves the chamber's configuration fields
unchanged. -/
theorem testingMonitorStep_preserves (ch : ChamberTestState) (s : ℚ) :
    (testingMonitorStep ch s).enabled = ch.enabled ∧
    (testingMonitorStep ch s).stabilized = ch.stabilized ∧
    (testingMonitorStep ch s).pressure_threshold = ch.pressure_threshold := by
  unfold testingMonitorStep
  dsimp only
  split
  · split <;> exact ⟨rfl, rfl, rfl⟩
  · exact ⟨rfl, rfl, rfl⟩

/-- Helper: once `result` is `False`, folding further samples keeps it
`False`. -/
theorem foldl_testingMonitorStep_result_mono (samples : List ℚ)
    (ch : ChamberTestState)
    (h : (samples.foldl testingMonitorStep ch).result = true) :
    ch.result = true := by
  induction samples generalizing ch with
  | nil => exact h
  | cons a as ih =>
    exact testingMonitorStep_result_mono ch a (ih (testingMonitorStep ch a) h)

/-- Helper: a sample strictly below the threshold latches `result = False`
on an enabled, stabilized chamber. -/
theorem testingMonitorStep_dip (ch : ChamberTestState) (s : ℚ)
    (hen : ch.enabled = true) (hst : ch.stabilized = true)
    (hdip : s < ch.pressure_threshold) :
    (testingMonitorStep ch s).result = false := by
  unfold testingMonitorStep
  dsimp only
  rw [hen, hst]
  simp only [Bool.and_self, if_true]
  rw [if_pos hdip]

/-- Helper: the end-of-phase bookkeeping never changes `result` (the
default-to-pass branch is dead). -/
theorem testingPhaseEnd_result (ch : ChamberTestState) :
    (testingPhaseEnd ch).result = ch.result := by
  unfold testingPhaseEnd resultMissing
  dsimp only
  split <;> rfl

/-- C1: the claim says an enabled, stabilized chamber whose TESTING samples
never fall below `pressure_threshold` ends the run with `result = true`
(never-flagged chambers default to pass).  The code disagrees: `result` is
the boolean `False` after `reset`, the loop never assigns `True`, and the
default-to-pass guard `not hasattr(chamber, 'result') or chamber.result is
None` can never hold, so the chamber below — threshold 5, every sample 150
— still ends with `result = false`.  This contradicts both the spec and the
source's own comment "Default result is pass unless pressure dropped below
threshold". -/
theorem testing_phase_never_flagged_still_fails :
    (∀ s ∈ [(150 : ℚ), 150, 150],
        stabilizedChamber.pressure_threshold ≤ s) ∧
    stabilizedChamber.enabled = true ∧
    stabilizedChamber.stabilized = true ∧
    (runTestingPhase stabilizedChamber [150, 150, 150]).tested = true ∧
    (runTestingPhase stabilizedChamber [150, 150, 150]).result = false := by
  refine ⟨?_, rfl, rfl, rfl, rfl⟩
  decide

/-- C3: if any sample observed during TESTING by an enabled, stabilized
chamber is strictly below its `pressure_threshold`, the chamber's `result`
is `false` at the end of the phase, regardless of every later sample — a
single dip latches the failure and nothing ever sets `result` back to
`true`. -/
theorem testing_dip_latches_fail (ch : ChamberTestState) (samples : List ℚ)
    (hen : ch.enabled = true) (hst : ch.stabilized = true)
    (hdip : ∃ s ∈ samples, s < ch.pressure_threshold) :
    (runTestingPhase ch samples).result = false := by
  unfold runTestingPhase
  rw [testingPhaseEnd_result]
  induction samples generalizing ch with
  | nil => simp at hdip
  | cons a as ih =>
    obtain ⟨s, hmem, hlt⟩ := hdip
    rcases List.mem_cons.mp hmem with heq | hmem2
    · subst heq
      rw [List.foldl_cons]
      have hfalse := testingMonitorStep_dip ch s hen hst hlt
      cases hres : (as.foldl testingMonitorStep (testingMonitorStep ch s)).result
      · rfl
      · have := foldl_testingMonitorStep_result_mono as _ hres
        rw [hfalse] at this
        exact absurd this Bool.false_ne_true
    · rw [List.foldl_cons]
      obtain ⟨he, hs, ht⟩ := testingMonitorStep_preserves ch a
      exact ih (testingMonitorStep ch a) (he.trans hen) (hs.trans hst)
        ⟨s, hmem2, ht ▸ hlt⟩

/-- Witness for C3: the stabilized default chamber (threshold 5) dips to 3
once and recovers to 150; its result is `false`. -/
theorem testing_dip_latches_fail_witness :
    (runTestingPhase stabilizedChamber [3, 150]).result = false :=
  testing_dip_latches_fail stabilizedChamber [3, 150] rfl rfl
    ⟨3, by decide, by decide⟩

/-- Helper: the save's UPDATE step does not change any record's payload,
so saving appends exactly one payload. -/
theorem save_calibration_payloads (db : CalDb) (c : CalibrationResult) :
    (save_calibration db c).map CalRecord.data
      = db.map CalRecord.data ++ [c] := by
  unfold save_calibration
  rw [List.map_append, List.map_map]
  congr 1
  apply List.map_congr_left
  intro r _
  by_cases h : r.data.chamber_id = c.chamber_id ∧ r.is_active = true
  · simp only [Function.comp_apply, if_pos h]
  · simp only [Function.comp_apply, if_neg h]

/-- Helper: right after saving `c`, the active records of `c`'s chamber
are exactly the newly inserted one. -/
theorem activeFor_save_self (db : CalDb) (c : CalibrationResult) :
    activeFor (save_calibration db c) c.chamber_id
      = [{ data := c, is_active := true }] := by
  unfold activeFor save_calibration
  rw [List.filter_append]
  have h1 : (db.map fun r =>
      if r.data.chamber_id = c.chamber_id ∧ r.is_active = true then
        { r with is_active := false }
      else r).filter
        (fun r => r.data.chamber_id == c.chamber_id && r.is_active) = [] := by
    apply List.filter_eq_nil_iff.mpr
    intro a ha
    obtain ⟨r, _, rfl⟩ := List.mem_map.mp ha
    by_cases h : r.data.chamber_id = c.chamber_id ∧ r.is_active = true
    · rw [if_pos h]; simp
    · rw [if_neg h]; simpa using h
  rw [h1]
  simp

/-- Helper: a save only touches records of its own chamber, so any other
chamber's active set is unchanged. -/
theorem activeFor_save_other (db : CalDb) (c : CalibrationResult) (cid : ℕ)
    (h : cid ≠ c.chamber_id) :
    activeFor (save_calibration db c) cid = activeFor db cid := by
  unfold activeFor save_calibration
  rw [List.filter_append]
  have h2 : List.filter (fun r : CalRecord => r.data.chamber_id == cid && r.is_active)
      [{ data := c, is_active := true }] = [] := by
    simp [Ne.symm h]
  rw [h2, List.append_nil]
  induction db with
  | nil => rfl
  | cons r rs ih =>
    rw [List.map_cons]
    by_cases hcnd : r.data.chamber_id = c.chamber_id ∧ r.is_active = true
    · rw [if_pos hcnd]
      have hne : r.data.chamber_id ≠ cid := by rw [hcnd.1]; exact Ne.symm h
      simp only [List.filter_cons]
      simp [hne, ih]
    · rw [if_neg hcnd]
      simp only [List.filter_cons, ih]

/-- Helper: after any sequence of saves starting from the empty database,
each chamber has at most one active calibration record. -/
theorem activeFor_savedDb_le_one (cals : List CalibrationResult) (cid : ℕ) :
    (activeFor (savedDb cals) cid).length ≤ 1 := by
  suffices h : ∀ db : CalDb, (∀ j, (activeFor db j).length ≤ 1) →
      ∀ j, (activeFor (cals.foldl save_calibration db) j).length ≤ 1 by
    exact h [] (fun j => by simp [activeFor]) cid
  induction cals with
  | nil => exact fun db hdb j => hdb j
  | cons c cs ih =>
    intro db hdb j
    rw [List.foldl_cons]
    apply ih
    intro k
    by_cases hk : k = c.chamber_id
    · subst hk; rw [activeFor_save_self]; simp
    · rw [activeFor_save_other db c k hk]; exact hdb k

/-- Helper: the database after a sequence of saves holds exactly the saved
payloads, in insertion order — history is retained, never deleted. -/
theorem savedDb_payloads (cals : List CalibrationResult) :
    (savedDb cals).map CalRecord.data = cals := by
  suffices h : ∀ db : CalDb, (cals.foldl save_calibration db).map CalRecord.data
      = db.map CalRecord.data ++ cals by
    simpa using h []
  induction cals with
  | nil => intro db; simp
  | cons c cs ih =>
    intro db
    rw [List.foldl_cons, ih, save_calibration_payloads]
    simp

/-- Helper: the history query returns records sorted most recent first. -/
theorem get_calibration_history_sorted (db : CalDb) (cid limit : ℕ) :
    List.Sorted moreRecent (get_calibration_history db cid limit) := by
  unfold get_calibration_history
  exact List.Pairwise.sublist (List.take_sublist _ _)
    (List.sorted_insertionSort moreRecent _)

/-- Helper: every record the history query returns is a database record of
the requested chamber. -/
theorem get_calibration_history_mem (db : CalDb) (cid limit : ℕ)
    (r : CalRecord) (hr : r ∈ get_calibration_history db cid limit) :
    r ∈ db ∧ r.data.chamber_id = cid := by
  unfold get_calibration_history at hr
  have h1 := List.mem_of_mem_take hr
  rw [List.mem_insertionSort] at h1
  have h2 := List.mem_filter.mp h1
  exact ⟨h2.1, by simpa using h2.2⟩

/-- Helper: when the limit covers the chamber's record count, the history
query returns all of the chamber's records (a permutation of them). -/
theorem get_calibration_history_complete (db : CalDb) (cid limit : ℕ)
    (h : (db.filter fun r => r.data.chamber_id == cid).length ≤ limit) :
    List.Perm (get_calibration_history db cid limit)
      (db.filter fun r => r.data.chamber_id == cid) := by
  unfold get_calibration_history
  rw [List.take_of_length_le]
  · exact List.perm_insertionSort moreRecent _
  · rw [(List.perm_insertionSort moreRecent _).length_eq]
    exact h

/-- C4: after any sequence of `save_calibration` calls on a fresh database,
(1) the chamber just saved has exactly the new record active — the save
deactivated the prior active record and inserted the new one as active;
(2) every chamber has at most one active record; (3) every previously
saved record is retained, in insertion order; (4) `get_calibration_history`
returns records sorted most recent first; (5) each returned record is one
of the saved records of the requested chamber; (6) the query is complete:
whenever the limit covers the chamber's record count, the returned history
is a permutation of all of the chamber's records; and (7) on the spec's
concrete scenario — two results saved for chamber 0 — the history with
limit 10 is exactly both saved records, the newer (still active) one
first. -/
theorem calibration_db_save_invariant (cals : List CalibrationResult)
    (c : CalibrationResult) (cid limit : ℕ) :
    activeFor (save_calibration (savedDb cals) c) c.chamber_id
        = [{ data := c, is_active := true }]
    ∧ (activeFor (savedDb cals) cid).length ≤ 1
    ∧ (savedDb cals).map CalRecord.data = cals
    ∧ List.Sorted moreRecent (get_calibration_history (savedDb cals) cid limit)
    ∧ (get_calibration_history (savedDb cals) cid limit).Forall
        (fun r => r.data ∈ cals ∧ r.data.chamber_id = cid)
    ∧ (((savedDb cals).filter fun r => r.data.chamber_id == cid).length ≤ limit →
        List.Perm (get_calibration_history (savedDb cals) cid limit)
          ((savedDb cals).filter fun r => r.data.chamber_id == cid))
    ∧ get_calibration_history (savedDb [calFirst, calSecond]) 0 10
        = [{ data := calSecond, is_active := true },
           { data := calFirst, is_active := false }] := by
  refine ⟨activeFor_save_self _ c, activeFor_savedDb_le_one cals cid,
    savedDb_payloads cals, get_calibration_history_sorted _ cid limit,
    List.forall_iff_forall_mem.mpr fun r hr => ?_,
    fun h => get_calibration_history_complete _ cid limit h, ?_⟩
  · obtain ⟨hmem, hcid⟩ := get_calibration_history_mem _ cid limit r hr
    refine ⟨?_, hcid⟩
    rw [← savedDb_payloads cals]
    exact List.mem_map_of_mem CalRecord.data hmem
  · rfl

/-- Witness for C4: the completeness clause discharged on the spec's
two-save scenario — `get_calibration_history` with limit 10 returns all of
chamber 0's records. -/
theorem calibration_db_save_invariant_witness :
    List.Perm (get_calibration_history (savedDb [calFirst, calSecond]) 0 10)
      ((savedDb [calFirst, calSecond]).filter fun r => r.data.chamber_id == 0) :=
  (calibration_db_save_invariant [calFirst, calSecond] calFirst 0 10).2.2.2.2.2.1
    (by decide)

/-- Helper: the mean of the voltage column is x̄. -/
theorem listMean_map_voltage (points : List CalibrationPoint) :
    listMean (points.map CalibrationPoint.voltage) = xbar points := by
  unfold listMean xbar
  rw [List.length_map]

/-- Helper: the mean of the pressure column is ȳ. -/
theorem listMean_map_pressure (points : List CalibrationPoint) :
    listMean (points.map CalibrationPoint.pressure) = ybar points := by
  unfold listMean ybar
  rw [List.length_map]

/-- Helper: on at least two points with non-zero voltage variance, the
manager's regression returns exactly the spec's least-squares fit, with
`r²` defaulting to `0` on zero `SS_tot`. -/
theorem manager_calc_characterization (points : List CalibrationPoint)
    (h2 : 2 ≤ points.length) (hvar : specSsXX points ≠ 0) :
    CalibrationManager.calculate_calibration points
      = some { multiplier := olsMultiplier points
               offset := olsOffset points
               r_squared := if specSsTot points = 0 then 0
                 else 1 - specSsRes points / specSsTot points } := by
  have hlen : ¬ points.length < 2 := by omega
  simp only [CalibrationManager.calculate_calibration, hlen, if_false,
    listMean_map_voltage, listMean_map_pressure]
  have hden : ((points.map CalibrationPoint.voltage).map
      fun v => (v - xbar points) ^ 2).sum = specSsXX points := by
    rw [List.map_map]; rfl
  have hnum : (((points.map CalibrationPoint.voltage).zip
        (points.map CalibrationPoint.pressure)).map
      fun p => (p.1 - xbar points) * (p.2 - ybar points)).sum = specSxy points := by
    rw [List.zip_map', List.map_map]; rfl
  have htot : ((points.map CalibrationPoint.pressure).map
      fun v => (v - ybar points) ^ 2).sum = specSsTot points := by
    rw [List.map_map]; rfl
  rw [hden, hnum, if_neg hvar]
  have hm : specSxy points / specSsXX points = olsMultiplier points := rfl
  rw [hm]
  have hb : ybar points - olsMultiplier points * xbar points = olsOffset points := rfl
  rw [hb, htot]
  have hres : (((points.map CalibrationPoint.pressure).zip
        ((points.map CalibrationPoint.voltage).map
          fun v => olsMultiplier points * v + olsOffset points)).map
      fun p => (p.1 - p.2) ^ 2).sum = specSsRes points := by
    rw [List.map_map, List.zip_map', List.map_map]; rfl
  rw [hres]

/-- Helper: on the same inputs the database variant computes the same fit,
except that a zero `SS_tot` leaves `r²` with no value (unguarded `0/0`). -/
theorem db_calc_characterization (points : List CalibrationPoint)
    (h2 : 2 ≤ points.length) (hvar : specSsXX points ≠ 0) :
    CalibrationDatabase.calculate_calibration points
      = some { multiplier := some (olsMultiplier points)
               offset := some (olsOffset points)
               r_squared := if specSsTot points = 0 then none
                 else some (1 - specSsRes points / specSsTot points) } := by
  have hlen : ¬ points.length < 2 := by omega
  simp only [CalibrationDatabase.calculate_calibration, hlen, if_false,
    listMean_map_voltage, listMean_map_pressure]
  have hden : ((points.map CalibrationPoint.voltage).map
      fun v => (v - xbar points) ^ 2).sum = specSsXX points := by
    rw [List.map_map]; rfl
  have hnum : (((points.map CalibrationPoint.voltage).zip
        (points.map CalibrationPoint.pressure)).map
      fun p => (p.1 - xbar points) * (p.2 - ybar points)).sum = specSxy points := by
    rw [List.zip_map', List.map_map]; rfl
  have htot : ((points.map CalibrationPoint.pressure).map
      fun v => (v - ybar points) ^ 2).sum = specSsTot points := by
    rw [List.map_map]; rfl
  rw [hden, hnum, if_neg hvar]
  have hm : specSxy points / specSsXX points = olsMultiplier points := rfl
  rw [hm]
  have hb : ybar points - olsMultiplier points * xbar points = olsOffset points := rfl
  rw [hb, htot]
  have hres : (((points.map CalibrationPoint.pressure).zip
        ((points.map CalibrationPoint.voltage).map
          fun v => olsMultiplier points * v + olsOffset points)).map
      fun p => (p.1 - p.2) ^ 2).sum = specSsRes points := by
    rw [List.map_map, List.zip_map', List.map_map]; rfl
  rw [hres]

/-- C5: for at least two points whose voltages have non-zero variance, the
manager's regression returns the ordinary-least-squares fit
`multiplier = Σ((x_i−x̄)(y_i−ȳ))/Σ((x_i−x̄)²)` and
`offset = ȳ − multiplier·x̄`; in particular on the points (0 V, 0 mbar)
and (1 V, 1000 mbar) it yields multiplier 1000, offset 0 and r² = 1. -/
theorem calculate_calibration_ols (points : List CalibrationPoint)
    (h2 : 2 ≤ points.length) (hvar : specSsXX points ≠ 0) :
    (CalibrationManager.calculate_calibration points).map CalibrationFit.multiplier
        = some (olsMultiplier points)
    ∧ (CalibrationManager.calculate_calibration points).map CalibrationFit.offset
        = some (olsOffset points)
    ∧ CalibrationManager.calculate_calibration
        [{ pressure := 0, voltage := 0, timestamp := 0 },
         { pressure := 1000, voltage := 1, timestamp := 1 }]
      = some { multiplier := 1000, offset := 0, r_squared := 1 } := by
  rw [manager_calc_characterization points h2 hvar]
  refine ⟨rfl, rfl, ?_⟩
  norm_num [CalibrationManager.calculate_calibration, listMean]

/-- Witness for C5: the two spec points have the required count and
variance, and the fit is exactly (1000, 0, 1). -/
theorem calculate_calibration_ols_witness :
    CalibrationManager.calculate_calibration
        [{ pressure := 0, voltage := 0, timestamp := 0 },
         { pressure := 1000, voltage := 1, timestamp := 1 }]
      = some { multiplier := 1000, offset := 0, r_squared := 1 } :=
  (calculate_calibration_ols
    [{ pressure := 0, voltage := 0, timestamp := 0 },
     { pressure := 1000, voltage := 1, timestamp := 1 }]
    (by decide) (by norm_num [specSsXX, xbar])).2.2

/-- C8 counterexample: the claim says `calculate_calibration` guards the
`SS_tot` division and returns `r² = 0`; the `CalibrationDatabase` variant —
one of the claim's two cited implementations — does not: on two points with
equal reference pressures (SS_tot = 0) and distinct voltages it performs
NumPy's `0/0` and its `r_squared` is undefined (NaN), not `0`. -/
theorem db_r_squared_undefined :
    CalibrationDatabase.calculate_calibration
        [{ pressure := 5, voltage := 0, timestamp := 0 },
         { pressure := 5, voltage := 1, timestamp := 1 }]
      = some { multiplier := some 0, offset := some 5, r_squared := none }
    ∧ specSsXX [{ pressure := 5, voltage := 0, timestamp := 0 },
         { pressure := 5, voltage := 1, timestamp := 1 }] ≠ 0
    ∧ specSsTot [{ pressure := 5, voltage := 0, timestamp := 0 },
         { pressure := 5, voltage := 1, timestamp := 1 }] = 0 := by
  refine ⟨?_, ?_, ?_⟩
  · norm_num [CalibrationDatabase.calculate_calibration, listMean]
  · norm_num [specSsXX, xbar]
  · norm_num [specSsTot, ybar]

/-- C8 (amended): on at least two points with non-zero voltage variance and
`SS_tot = 0`, `CalibrationManager.calculate_calibration` guards the
division and returns `r² = 0`, while `CalibrationDatabase.calculate_calibration`
performs the division unguarded and yields an undefined `r²`. -/
theorem ss_tot_zero_r_squared (points : List CalibrationPoint)
    (h2 : 2 ≤ points.length) (hvar : specSsXX points ≠ 0)
    (htot : specSsTot points = 0) :
    (CalibrationManager.calculate_calibration points).map CalibrationFit.r_squared
        = some 0
    ∧ (CalibrationDatabase.calculate_calibration points).map
        CalibrationFitPartial.r_squared = some none := by
  rw [manager_calc_characterization points h2 hvar,
    db_calc_characterization points h2 hvar]
  simp [htot]

/-- Witness for C8: the amended statement evaluated on the two equal-pressure
points. -/
theorem ss_tot_zero_r_squared_witness :
    (CalibrationManager.calculate_calibration
        [{ pressure := 5, voltage := 0, timestamp := 2 },
         { pressure := 5, voltage := 1, timestamp := 3 }]).map
        CalibrationFit.r_squared = some 0
    ∧ (CalibrationDatabase.calculate_calibration
        [{ pressure := 5, voltage := 0, timestamp := 2 },
         { pressure := 5, voltage := 1, timestamp := 3 }]).map
        CalibrationFitPartial.r_squared = some none :=
  ss_tot_zero_r_squared
    [{ pressure := 5, voltage := 0, timestamp := 2 },
     { pressure := 5, voltage := 1, timestamp := 3 }]
    (by decide) (by norm_num [specSsXX, xbar]) (by norm_num [specSsTot, ybar])

/-- C2: for every combination of phase outcomes — all phases succeed, a
phase returns failure (timeout or stop), or a phase raises — the trace of
`_run_test` contains the EMPTYING phase exactly once, and it is executed
before the run ends (only result processing follows it). -/
theorem run_test_emptying_exactly_once (o : PhaseOutcomes) :
    (runTestTrace o).count TestEvent.emptying = 1 ∧
    (runTestTrace o).getLast? = some TestEvent.processResults ∧
    (runTestTrace o).dropLast.getLast? = some TestEvent.emptying := by
  obtain ⟨f, r, s, t⟩ := o
  cases f <;> cases r <;> cases s <;> cases t <;> decide

/-- Helper: the sum of consecutive differences telescopes to last minus
first. -/
theorem consecutiveDiffSum_eq (l : List ℚ) (h : l ≠ []) :
    consecutiveDiffSum l = l.getLastI - l.headI := by
  induction l with
  | nil => exact absurd rfl h
  | cons a t ih =>
    cases t with
    | nil => simp [consecutiveDiffSum, List.getLastI, List.headI]
    | cons b t2 =>
      have ht : consecutiveDiffSum (b :: t2) = (b :: t2).getLastI - (b :: t2).headI :=
        ih (List.cons_ne_nil b t2)
      unfold consecutiveDiffSum at ht ⊢
      simp only [List.zip_cons_cons, List.tail_cons, List.map_cons, List.sum_cons] at ht ⊢
      rw [ht]
      simp only [List.headI, List.getLastI_eq_getLast?, List.getLast?_cons_cons]
      ring

/-- Helper: pushing onto a history of at most 10 entries yields a nonempty
history of at most 10 entries. -/
theorem pushHistory_length (hist : List ℚ) (p : ℚ) (h : hist.length ≤ 10) :
    1 ≤ (pushHistory hist p).length ∧ (pushHistory hist p).length ≤ 10 := by
  unfold pushHistory
  dsimp only
  split
  · rename_i hgt
    simp only [List.length_append, List.length_cons, List.length_nil] at hgt
    simp only [List.length_tail, List.length_append, List.length_cons,
      List.length_nil]
    omega
  · rename_i hgt
    simp only [List.length_append, List.length_cons, List.length_nil] at hgt ⊢
    omega

/-- C6 counterexample: the claim computes `rate_factor` from the mean of
per-sample rates `(current − last)/sample_interval`.  Starting the wrapper
fresh at setpoint 150 and feeding pressures 100 then 101 (sample interval
0.1 s), the claim's formula gives rate 10 mbar/s, `rate_factor = 1` and
`pulse_on = max(0.05, 0.3·0) = 0.05`; the source instead averages raw
consecutive pressure differences (never dividing by `sample_time`), gets
`rate_factor = 0.1` and returns `pulse_on = 0.27`. -/
theorem adaptive_pulse_rate_counterexample :
    ((compute_adaptive_pulse
        (compute_adaptive_pulse (PIDWrapperState.init 150) 100).2 101).1.pulse_on
      = 27 / 100)
    ∧ ((claim_decide
        (claim_decide (ClaimRegState.init 150) 100).2 101).1.pulse_on
      = 1 / 20)
    ∧ (27 / 100 : ℚ) ≠ 1 / 20 := by
  refine ⟨?_, ?_, by norm_num⟩
  · norm_num [compute_adaptive_pulse, PIDWrapperState.init, pushHistory,
      consecutiveDiffSum, modeThreshold, modePulseOn, modePulseOff]
  · norm_num [claim_decide, ClaimRegState.init, modeThreshold, modePulseOn,
      modePulseOff]

/-- C6 (amended): `compute_adaptive_pulse` returns
`pulse_on = max(0.05, base_pulse_on·(1 − rate_factor))` and
`pulse_off = max(0.05, base_pulse_off·(1 + rate_factor))` with
`rate_factor = min(1, |avg_rate|/10)`, where `avg_rate` is the mean of the
consecutive differences of the bounded (≤10 entries) pressure history —
the telescoped drift `(last − first)/(n−1)` per sample, NOT the rates
`(current − last)/sample_interval` of the claim (that quantity is computed
only for a log line). -/
theorem compute_adaptive_pulse_amended (s : PIDWrapperState) (current : ℚ)
    (hlen : s.pressure_history.length ≤ 10) :
    1 ≤ (pushHistory s.pressure_history current).length
    ∧ (pushHistory s.pressure_history current).length ≤ 10
    ∧ (compute_adaptive_pulse s current).2.pressure_history
        = pushHistory s.pressure_history current
    ∧ (compute_adaptive_pulse s current).1.pulse_on
        = max (1 / 20) (modePulseOn (compute_adaptive_pulse s current).1.mode
            * (1 - adjRateFactor (pushHistory s.pressure_history current)))
    ∧ (compute_adaptive_pulse s current).1.pulse_off
        = max (1 / 20) (modePulseOff (compute_adaptive_pulse s current).1.mode
            * (1 + adjRateFactor (pushHistory s.pressure_history current))) := by
  obtain ⟨h1, h10⟩ := pushHistory_length s.pressure_history current hlen
  have hne : pushHistory s.pressure_history current ≠ [] := by
    intro h0
    rw [h0] at h1
    simp at h1
  have htel := consecutiveDiffSum_eq _ hne
  refine ⟨h1, h10, rfl, ?_, ?_⟩
  · simp only [compute_adaptive_pulse, adjRateFactor]
    rw [htel]
  · simp only [compute_adaptive_pulse, adjRateFactor]
    rw [htel]

/-- Witness for C6 (amended): the amended statement evaluated on a fresh
wrapper fed 100 mbar. -/
theorem compute_adaptive_pulse_amended_witness :
    1 ≤ (pushHistory (PIDWrapperState.init 150).pressure_history 100).length
    ∧ (pushHistory (PIDWrapperState.init 150).pressure_history 100).length ≤ 10
    ∧ (compute_adaptive_pulse (PIDWrapperState.init 150) 100).2.pressure_history
        = pushHistory (PIDWrapperState.init 150).pressure_history 100
    ∧ (compute_adaptive_pulse (PIDWrapperState.init 150) 100).1.pulse_on
        = max (1 / 20) (modePulseOn
            (compute_adaptive_pulse (PIDWrapperState.init 150) 100).1.mode
            * (1 - adjRateFactor
                (pushHistory (PIDWrapperState.init 150).pressure_history 100)))
    ∧ (compute_adaptive_pulse (PIDWrapperState.init 150) 100).1.pulse_off
        = max (1 / 20) (modePulseOff
            (compute_adaptive_pulse (PIDWrapperState.init 150) 100).1.mode
            * (1 + adjRateFactor
                (pushHistory (PIDWrapperState.init 150).pressure_history 100))) :=
  compute_adaptive_pulse_amended (PIDWrapperState.init 150) 100 (by decide)

/-- C7: when the regulation decision runs with the current pressure exactly
equal to the target (and a nonnegative tolerance, as validated by
`set_chamber_parameters`), on any call that does not complete the
within-tolerance exit the selected mode is "fine" and the action is idle:
neither an inlet nor an outlet pulse is issued, both valves stay closed. -/
theorem regulation_at_target_idle (target tolerance : ℚ) (st : RegLoopState)
    (htol : 0 ≤ tolerance) (hcount : st.stable_count + 1 < 5) :
    (regulationTick target tolerance st target).1 = RegCommand.idle
    ∧ (regulationTick target tolerance st target).2.1 = some RegMode.fine := by
  unfold regulationTick
  simp only [sub_self, abs_zero]
  have hc : ¬ ((0 : ℚ) ≤ tolerance ∧ 5 ≤ st.stable_count + 1) := by
    rintro ⟨-, h5⟩
    omega
  rw [if_neg hc]
  have h10 : ¬ ((0 : ℚ) > 10) := by norm_num
  have h5m : ¬ ((0 : ℚ) > 5) := by norm_num
  rw [if_neg h10, if_neg h5m, if_neg (not_lt.mpr htol),
    if_neg (not_lt.mpr (neg_nonpos.mpr htol))]
  exact ⟨rfl, rfl⟩

/-- Witness for C7: fresh bookkeeping, target 150, default tolerance 2,
current exactly 150. -/
theorem regulation_at_target_idle_witness :
    (regulationTick 150 2 RegLoopState.init 150).1 = RegCommand.idle
    ∧ (regulationTick 150 2 RegLoopState.init 150).2.1 = some RegMode.fine :=
  regulation_at_target_idle 150 2 RegLoopState.init (by norm_num) (by decide)

/-- Helper: reading the element just written. -/
theorem getD_set_self (l : List ℕ) (n a d : ℕ) (h : n < l.length) :
    (l.set n a).getD n d = a := by
  simp [List.getD_eq_getElem?_getD, List.getElem?_set_self, h]

/-- Helper: bumping a channel's counter increments `errOf`. -/
theorem errOf_bumpError (s : SensorState) (channel : ℕ)
    (h : channel < s.consecutive_errors.length) :
    (s.bumpError channel).errOf channel = s.errOf channel + 1 := by
  unfold SensorState.bumpError SensorState.errOf
  exact getD_set_self _ _ _ _ h

/-- Helper: clearing a channel's counter zeroes `errOf`. -/
theorem errOf_clearError (s : SensorState) (channel : ℕ)
    (h : channel < s.consecutive_errors.length) :
    (s.clearError channel).errOf channel = 0 := by
  unfold SensorState.clearError SensorState.errOf
  exact getD_set_self _ _ _ _ h

/-- Helper: every channel of a freshly reset error array reads zero. -/
theorem errOf_zeros (s : SensorState) (channel : ℕ) :
    ({ s with consecutive_errors := [0, 0, 0, 0] } : SensorState).errOf channel = 0 := by
  unfold SensorState.errOf
  match channel with
  | 0 => rfl
  | 1 => rfl
  | 2 => rfl
  | 3 => rfl
  | (n + 4) => rfl

/-- C9 counterexample: the claim says the cooldown sleep at the threshold
is one-time.  With channel 0's counter at the threshold, a `read_pressure`
call sleeps, returns `None`, and leaves the state — including the counter —
unchanged, so the immediately following `read_pressure` call sleeps again:
the sleep recurs on every further read, it is not one-time. -/
theorem read_pressure_sleep_recurs :
    (read_pressure sensorAtThreshold 0 DeviceOutcome.readRaised true).slept = true
    ∧ (read_pressure sensorAtThreshold 0 DeviceOutcome.readRaised true).state
        = sensorAtThreshold
    ∧ (read_pressure
        (read_pressure sensorAtThreshold 0 DeviceOutcome.readRaised true).state
        0 DeviceOutcome.readRaised true).slept = true :=
  ⟨rfl, rfl, rfl⟩

/-- C9 (amended): for every valid channel, while the counter is below the
threshold every failed read increments it (a successful re-initialization
first resets the counters, so the subsequent failed read leaves it at 1)
and every successful read resets it to zero; once the counter is at or past
the threshold (default 5) both `read_voltage` and `read_pressure`
short-circuit returning no value without touching the device, and
`read_pressure` performs the cooldown sleep precisely when the counter
equals the threshold — since its short-circuit never advances the counter,
that sleep repeats on every further `read_pressure` call rather than
occurring once (only a direct `read_voltage` call at the threshold bumps
the counter past it, as it logs its one-time warning). -/
theorem sensor_error_backoff (s : SensorState) (channel : ℕ) (v : ℚ)
    (dev : DeviceOutcome) (af : Bool)
    (hch : channel ≤ 3) (hlen : s.consecutive_errors.length = 4) :
    (s.errOf channel < MAX_CONSECUTIVE_ERRORS →
      (read_voltage s channel DeviceOutcome.readRaised).value = none
      ∧ (read_voltage s channel DeviceOutcome.readRaised).state.errOf channel
          = s.errOf channel + 1
      ∧ (read_voltage s channel DeviceOutcome.initFailure).value = none
      ∧ (read_voltage s channel DeviceOutcome.initFailure).state.errOf channel
          = s.errOf channel + 1
      ∧ (read_voltage s channel (DeviceOutcome.initSuccessThen none)).value = none
      ∧ (read_voltage s channel
            (DeviceOutcome.initSuccessThen none)).state.errOf channel = 1
      ∧ (read_voltage s channel (DeviceOutcome.readOk v)).value = some v
      ∧ (read_voltage s channel (DeviceOutcome.readOk v)).state.errOf channel = 0)
    ∧ (MAX_CONSECUTIVE_ERRORS ≤ s.errOf channel →
      (read_voltage s channel dev).value = none
      ∧ (read_voltage s channel dev).device_touched = false
      ∧ (read_pressure s channel dev af).value = none
      ∧ (read_pressure s channel dev af).device_touched = false
      ∧ (read_pressure s channel dev af).state = s
      ∧ ((read_pressure s channel dev af).slept = true
          ↔ s.errOf channel = MAX_CONSECUTIVE_ERRORS)) := by
  have hch3 : ¬ 3 < channel := not_lt.mpr hch
  have hmem : channel < s.consecutive_errors.length := by omega
  have hmem4 : channel < ([0, 0, 0, 0] : List ℕ).length := by
    simp
    omega
  constructor
  · intro hlt
    have hge : ¬ MAX_CONSECUTIVE_ERRORS ≤ s.errOf channel := by omega
    simp only [read_voltage, if_neg hch3, if_neg hge]
    refine ⟨trivial, ?_, trivial, ?_, trivial, ?_, trivial, ?_⟩
    · exact errOf_bumpError s channel hmem
    · exact errOf_bumpError s channel hmem
    · rw [errOf_bumpError { s with consecutive_errors := [0, 0, 0, 0] }
        channel hmem4, errOf_zeros]
    · exact errOf_clearError s channel hmem
  · intro hge
    simp only [read_voltage, read_pressure, if_neg hch3, if_pos hge]
    refine ⟨?_, ?_, trivial, trivial, trivial, ?_⟩
    · split <;> rfl
    · split <;> rfl
    · exact decide_eq_true_iff

/-- Witness for C9 (amended): the statement evaluated at channel 0 of the
threshold-state sensor with a failing device. -/
theorem sensor_error_backoff_witness :
    (sensorAtThreshold.errOf 0 < MAX_CONSECUTIVE_ERRORS →
      (read_voltage sensorAtThreshold 0 DeviceOutcome.readRaised).value = none
      ∧ (read_voltage sensorAtThreshold 0
            DeviceOutcome.readRaised).state.errOf 0
          = sensorAtThreshold.errOf 0 + 1
      ∧ (read_voltage sensorAtThreshold 0 DeviceOutcome.initFailure).value = none
      ∧ (read_voltage sensorAtThreshold 0
            DeviceOutcome.initFailure).state.errOf 0
          = sensorAtThreshold.errOf 0 + 1
      ∧ (read_voltage sensorAtThreshold 0
            (DeviceOutcome.initSuccessThen none)).value = none
      ∧ (read_voltage sensorAtThreshold 0
            (DeviceOutcome.initSuccessThen none)).state.errOf 0 = 1
      ∧ (read_voltage sensorAtThreshold 0 (DeviceOutcome.readOk 1)).value = some 1
      ∧ (read_voltage sensorAtThreshold 0
            (DeviceOutcome.readOk 1)).state.errOf 0 = 0)
    ∧ (MAX_CONSECUTIVE_ERRORS ≤ sensorAtThreshold.errOf 0 →
      (read_voltage sensorAtThreshold 0 DeviceOutcome.readRaised).value = none
      ∧ (read_voltage sensorAtThreshold 0
            DeviceOutcome.readRaised).device_touched = false
      ∧ (read_pressure sensorAtThreshold 0
            DeviceOutcome.readRaised false).value = none
      ∧ (read_pressure sensorAtThreshold 0
            DeviceOutcome.readRaised false).device_touched = false
      ∧ (read_pressure sensorAtThreshold 0
            DeviceOutcome.readRaised false).state = sensorAtThreshold
      ∧ ((read_pressure sensorAtThreshold 0
            DeviceOutcome.readRaised false).slept = true
          ↔ sensorAtThreshold.errOf 0 = MAX_CONSECUTIVE_ERRORS)) :=
  sensor_error_backoff sensorAtThreshold 0 1 DeviceOutcome.readRaised false
    (by decide) (by decide)

/-- C10: called with no test running, a valid chamber index, a params dict
holding a valid `enabled` (or a valid `pressure_target`) together with a
negative `pressure_tolerance`, `set_chamber_parameters` returns `False`
and yet the earlier valid entries have already been applied to the chamber
state — the update is not atomic on failure. -/
theorem set_chamber_parameters_not_atomic (ch : ChamberTestState) (b : Bool)
    (target tolerance : ℚ) (htol : tolerance < 0)
    (htar : 0 ≤ target ∧ target ≤ MAX_PRESSURE) (hb : b ≠ ch.enabled) :
    set_chamber_parameters false 0 ch
        { enabled := some b, pressure_target := none, pressure_threshold := none,
          pressure_tolerance := some tolerance }
      = (false, { ch with enabled := b })
    ∧ ({ ch with enabled := b } : ChamberTestState) ≠ ch
    ∧ set_chamber_parameters false 0 ch
        { enabled := none, pressure_target := some target,
          pressure_threshold := none, pressure_tolerance := some tolerance }
      = (false, { ch with pressure_target := target }) := by
  refine ⟨?_, ?_, ?_⟩
  · unfold set_chamber_parameters setParamsThreshold setParamsTolerance
    rw [if_neg (by decide)]
    dsimp only
    rw [if_neg Bool.false_ne_true, if_neg (not_le.mpr htol)]
  · intro h
    exact hb (congrArg ChamberTestState.enabled h)
  · unfold set_chamber_parameters setParamsThreshold setParamsTolerance
    rw [if_neg (by decide)]
    dsimp only
    rw [if_neg Bool.false_ne_true, if_pos htar, if_neg (not_le.mpr htol)]

/-- Witness for C10: the default chamber (enabled) disabled together with a
tolerance of −1; the call fails but the chamber is left disabled. -/
theorem set_chamber_parameters_not_atomic_witness :
    set_chamber_parameters false 0 (ChamberTestState.init 0)
        { enabled := some false, pressure_target := none,
          pressure_threshold := none, pressure_tolerance := some (-1) }
      = (false, { ChamberTestState.init 0 with enabled := false })
    ∧ ({ ChamberTestState.init 0 with enabled := false } : ChamberTestState)
        ≠ ChamberTestState.init 0
    ∧ set_chamber_parameters false 0 (ChamberTestState.init 0)
        { enabled := none, pressure_target := some 100,
          pressure_threshold := none, pressure_tolerance := some (-1) }
      = (false, { ChamberTestState.init 0 with pressure_target := 100 }) :=
  set_chamber_parameters_not_atomic (ChamberTestState.init 0) false 100 (-1)
    (by norm_num)
    (by constructor <;> norm_num [MAX_PRESSURE])
    (by simp [ChamberTestState.init])

end MultiChamberTest
